import Mathlib

/-
Verification of the astrokit two-line-element (TLE) front end.

The authoritative source is src/src/tle.js: the `TLE` constructor (a
fixed-column parser for the standard two-line element-set text format) and
the `TLE.sgp4` driver method (gravity-model selection, lazy creation of the
cached propagation record `satrec`, and dispatch to the low-level
propagator).  The numeric propagator itself (`sgp4init`, `sgp4` and
`getgravconst` from sgp4.js) is not part of the sources being verified;
where a property depends on it, the relevant behaviour is modelled from the
design document and marked as such on the definition.

JavaScript numbers that arise from `Number(string)` are modelled as
`Option ℚ`: `none` stands for NaN, and `some q` for the exact rational
value of the decimal literal (the TLE fields are short decimal strings, so
the rational idealisation is exact at the level these properties speak
about).  JavaScript strings are modelled as lists of characters.
-/

namespace Astrokit

/- The Batteries rational-number operations are `@[irreducible]`; concrete
evaluation of the parser below needs them to unfold. -/
attribute [local semireducible] Rat.mul Rat.add Rat.inv Rat.sub Rat.ofScientific

/-- JavaScript strings, modelled as lists of characters. -/
abbrev JStr := List Char

/-- JavaScript `s.substr(start, len)`: the characters in positions
`[start, start+len)`, clipped to the string. -/
def substr (s : JStr) (start len : Nat) : JStr := (s.drop start).take len

/-- JavaScript `s.replace('-', 'E-')`: replace the first occurrence of the
one-character search string `-` by `E-`. -/
def replaceFirstDash : JStr → JStr
  | [] => []
  | c :: cs => if c = '-' then 'E' :: '-' :: cs else c :: replaceFirstDash cs

/-- Whitespace characters trimmed by JavaScript string-to-number
conversion (the TLE fields only ever contain the plain space). -/
def isJsWS (c : Char) : Bool := c = ' ' ∨ c = '\t' ∨ c = '\n' ∨ c = '\r'

/-- Strip leading and trailing whitespace. -/
def trimJS (s : JStr) : JStr := ((s.dropWhile isJsWS).reverse.dropWhile isJsWS).reverse

/-- Split a longest prefix of decimal digits off a character list. -/
def splitDigits : JStr → JStr × JStr
  | [] => ([], [])
  | c :: cs =>
    if c.isDigit then
      let p := splitDigits cs
      (c :: p.1, p.2)
    else ([], c :: cs)

/-- Numeric value of a digit string. -/
def natOfDigits (l : JStr) : Nat := l.foldl (fun a c => a * 10 + (c.toNat - 48)) 0

/-- Split an optional leading sign, returning `-1` or `1`. -/
def splitSign : JStr → Int × JStr
  | '-' :: cs => (-1, cs)
  | '+' :: cs => (1, cs)
  | cs => (1, cs)

/-- Parse the exponent part of a decimal literal: either nothing, or
`e`/`E`, an optional sign and at least one digit, consuming the whole
remainder.  `none` is NaN. -/
def jsExponentPart : JStr → Option Int
  | [] => some 0
  | c :: cs =>
    if c = 'e' ∨ c = 'E' then
      let p := splitSign cs
      let q := splitDigits p.2
      if q.1 = [] ∨ q.2 ≠ [] then none
      else some (p.1 * (natOfDigits q.1 : Int))
    else none

/-- Parse the unsigned mantissa `digits [. digits]` or `. digits` of a
decimal literal, returning its value and the unconsumed remainder. -/
def jsMantissaPart (s : JStr) : Option (ℚ × JStr) :=
  let ip := splitDigits s
  match ip.2 with
  | '.' :: r2 =>
    let fp := splitDigits r2
    if ip.1 = [] ∧ fp.1 = [] then none
    else some ((natOfDigits ip.1 : ℚ) + (natOfDigits fp.1 : ℚ) / (10 : ℚ) ^ fp.1.length, fp.2)
  | _ => if ip.1 = [] then none else some ((natOfDigits ip.1 : ℚ), ip.2)

/-- JavaScript `Number(string)` on the decimal literals that occur in TLE
fields: whitespace is trimmed, the empty string is `0`, otherwise an
optional sign, a mantissa and an optional `e`/`E` exponent must consume the
whole string.  `none` models NaN.  (The special forms `Infinity` and radix
literals such as `0x…` never occur in fixed-width TLE columns and are not
modelled.) -/
def jsNumber (s : JStr) : Option ℚ :=
  let t := trimJS s
  if t = [] then some 0
  else
    let sp := splitSign t
    match jsMantissaPart sp.2 with
    | none => none
    | some m =>
      match jsExponentPart m.2 with
      | none => none
      | some e => some ((sp.1 : ℚ) * m.1 * (10 : ℚ) ^ e)

example : jsNumber "25544".data = some 25544 := by decide
example : jsNumber "-.00002182".data = some (-1091 / 50000000) := by decide
example : jsNumber "00000E-0".data = some 0 := by decide
example : jsNumber "0.11606E-4".data = some (5803 / 500000000) := by decide
example : jsNumber "13844E-3".data = some (3461 / 250) := by decide
example : jsNumber "2X5A4".data = none := by decide
example : jsNumber "   ".data = some 0 := by decide
example : jsNumber "0.00000+0".data = none := by decide

/-! ## Epoch arithmetic (model of the ECMAScript `Date` operations used) -/

/-- Days from 1970-01-01 to Jan 1 of (proleptic Gregorian) year `y`, for
positive years.  This is the value of the ECMAScript `MakeDay(y, 0, 1)`
operation reached through `Date.UTC(y, 0, 1)` in tle.js line 55; every year
reachable from a two-digit field after the pivot of lines 50–53 is at least
1991, so the positive-year restriction is harmless here. -/
def jan1Days (y : Int) : Int :=
  let yp := y - 1
  365 * yp + Int.tdiv yp 4 - Int.tdiv yp 100 + Int.tdiv yp 400 - 719162

example : jan1Days 1970 = 0 := by decide
example : jan1Days 2000 = 10957 := by decide
example : jan1Days 2008 = 13879 := by decide

/-- ECMAScript truncation-toward-zero of a number to an integer
(`ToIntegerOrInfinity`), applied by `Date.UTC` to its year argument. -/
def jsTrunc (q : ℚ) : Int := Int.tdiv q.num (q.den : Int)

/-- Milliseconds since the Unix epoch of `Date.UTC(y, 0, 1)`.  ECMAScript
maps year arguments `0 ≤ y ≤ 99` to `1900 + y`; that branch is unreachable
from tle.js (pivoted years are at least 1991) but kept for fidelity. -/
def utcMsJan1 (y : Int) : Int :=
  let yr := if 0 ≤ y ∧ y ≤ 99 then y + 1900 else y
  86400000 * jan1Days yr

/-- Epoch resolution from tle.js lines 49–56: the two-digit year field is
pivoted (`> 57` to the 1900s, otherwise the 2000s), and the epoch is
`Date.UTC(year, 0, 1)` advanced by `(day_of_year - 1) * 86400 * 1000`
milliseconds.  A NaN in either field yields an invalid date (`none`). -/
def epochMsOfFields (ey doy : Option ℚ) : Option ℚ :=
  match ey, doy with
  | some y, some d =>
    let y2 := if y > 57 then y + 1900 else y + 2000
    some ((utcMsJan1 (jsTrunc y2) : ℚ) + (d - 1) * 86400 * 1000)
  | _, _ => none

/-! ## The `TLE` constructor (tle.js lines 6–73) -/

/-- The parsed element-set record: the fields stored on a `TLE` object by
its constructor.  `Option ℚ` fields are JavaScript numbers (`none` = NaN). -/
structure TLEData where
  name : JStr
  satid : Option ℚ
  launch_year : Option ℚ
  launch_number : Option ℚ
  launch_piece : JStr
  epoch_ms : Option ℚ
  mean_motion_dot : Option ℚ
  mean_motion_dot_dot : Option ℚ
  bstar : Option ℚ
  elsetnum : Option ℚ
  inclination : Option ℚ
  raan : Option ℚ
  eccen : Option ℚ
  arg_of_perigee : Option ℚ
  mean_anomaly : Option ℚ
  mean_motion : Option ℚ
  revnum : Option ℚ
  deriving DecidableEq

/-- Line selected as element line 1 (tle.js lines 24–38): with three input
lines the second entry, otherwise the first. -/
def tleLine1 (ls : List JStr) : JStr :=
  if ls.length = 3 then ls.getD 1 [] else ls.getD 0 []

/-- Line selected as element line 2: with three input lines the third
entry, otherwise the second. -/
def tleLine2 (ls : List JStr) : JStr :=
  if ls.length = 3 then ls.getD 2 [] else ls.getD 1 []

/-- Stored name (tle.js lines 24–38): with three lines, the first line,
with its first two characters dropped when it starts with the padding
marker `0` (`substring(0,1) === '0'` then `substring(2)`); with two lines,
the literal name `unknown`. -/
def tleName (ls : List JStr) : JStr :=
  if ls.length = 3 then
    let l0 := ls.getD 0 []
    if substr l0 0 1 = ['0'] then l0.drop 2 else l0
  else "unknown".data

/-- The field extraction of the `TLE` constructor, tle.js lines 40–71,
column for column.  (Out-of-range list access, which would throw in
JavaScript, is modelled by the empty line; no claim exercises it.) -/
def parseTLE (ls : List JStr) : TLEData :=
  let line1 := tleLine1 ls
  let line2 := tleLine2 ls
  { name := tleName ls
    satid := jsNumber (substr line1 2 5)
    launch_year := (jsNumber (substr line1 9 2)).map
      (fun y => if y > 50 then y + 1900 else y + 2000)
    launch_number := jsNumber (substr line1 11 3)
    launch_piece := substr line1 14 3
    epoch_ms := epochMsOfFields (jsNumber (substr line1 18 2)) (jsNumber (substr line1 20 12))
    mean_motion_dot := jsNumber (substr line1 33 10)
    mean_motion_dot_dot := (jsNumber (replaceFirstDash (substr line1 45 7))).map
      (fun v => if substr line1 44 1 = ['-'] then -v else v)
    bstar := jsNumber ('0' :: '.' :: replaceFirstDash (substr line1 54 7))
    elsetnum := jsNumber (substr line1 64 4)
    inclination := jsNumber (substr line2 8 8)
    raan := jsNumber (substr line2 17 8)
    eccen := jsNumber ('0' :: '.' :: substr line2 26 7)
    arg_of_perigee := jsNumber (substr line2 34 8)
    mean_anomaly := jsNumber (substr line2 43 8)
    mean_motion := jsNumber (substr line2 52 11)
    revnum := jsNumber (substr line2 63 5) }

/-- Constructing a `TLE` from an array argument (tle.js line 8 taking the
array branch). -/
def tleFromArray (ls : List JStr) : TLEData := parseTLE ls

/-- Constructing a `TLE` from separate string arguments (tle.js lines
8–15).  The guard on line 9 reads `typeof line3`, but no variable named
`line3` is ever bound — the third parameter is `tline3` — so the guard is
always true, the two-element branch `lines = [lines, tline2]` is always
taken, and the third argument is dropped. -/
def tleFromStrings (l1 l2 _l3 : JStr) : TLEData := parseTLE [l1, l2]

/-- The Wikipedia example element set for the ISS, the shape of input the
parser is written for. -/
def issName : JStr := "0 ISS (ZARYA)".data

def issLine1 : JStr :=
  "1 25544U 98067A   08264.51782528 -.00002182  00000-0 -11606-4 0  2927".data

def issLine2 : JStr :=
  "2 25544  51.6416 247.4627 0006703 130.5360 325.0288 15.72125391563537".data

example : (parseTLE [issLine1, issLine2]).satid = some 25544 := by decide
example : (parseTLE [issLine1, issLine2]).launch_year = some 1998 := by decide
example : (parseTLE [issLine1, issLine2]).launch_number = some 67 := by decide
example : (parseTLE [issLine1, issLine2]).mean_motion_dot = some (-1091 / 50000000) := by decide
example : (parseTLE [issLine1, issLine2]).mean_motion_dot_dot = some 0 := by decide
example : (parseTLE [issLine1, issLine2]).bstar = some (5803 / 500000000) := by decide
example : (parseTLE [issLine1, issLine2]).elsetnum = some 292 := by decide
example : (parseTLE [issLine1, issLine2]).eccen = some (6703 / 10000000) := by decide
example : (parseTLE [issLine1, issLine2]).mean_motion = some (1572125391 / 100000000) := by decide
example : (parseTLE [issLine1, issLine2]).revnum = some 56353 := by decide
example :
    (parseTLE [issLine1, issLine2]).epoch_ms = some (152739192513024 / 125) := by decide
example :
    (parseTLE [issName, issLine1, issLine2]).name = "ISS (ZARYA)".data := by decide

/-! ## Gravity models and the `TLE.sgp4` driver (tle.js lines 75–121) -/

/-- A gravity-model constant bundle: equatorial radius, gravitational
parameter and the J2–J4 harmonic coefficients.  The derived transcendental
constants (`xke`, `tumin`) are functions of these and are carried
abstractly by the propagation step below. -/
structure GravConst where
  mu : ℚ
  radiusearthkm : ℚ
  j2 : ℚ
  j3 : ℚ
  j4 : ℚ
  deriving DecidableEq

/-- The WGS-72 constant set of the reference theory. -/
def wgs72 : GravConst :=
  { mu := 398600.8
    radiusearthkm := 6378.135
    j2 := 0.001082616
    j3 := -0.00000253881
    j4 := -0.00000165597 }

/-- The WGS-84 constant set of the reference theory. -/
def wgs84 : GravConst :=
  { mu := 398600.5
    radiusearthkm := 6378.137
    j2 := 0.00108262998905
    j3 := -0.00000253215306
    j4 := -0.00000165597 }

/-- Modelled from the spec: `getgravconst` lives in sgp4.js, which is not
among the sources; per the design (§4.2, §6) the lookup recognises exactly
the two historical WGS constant sets, `wgs72` and `wgs84`, and fails with
an unknown-model error for any other name. -/
def getgravconst (name : String) : Except String GravConst :=
  if name = "wgs72" then .ok wgs72
  else if name = "wgs84" then .ok wgs84
  else .error name

/-- Defaulting of the model-name argument, tle.js lines 79–80: an
unspecified (`undefined`) argument becomes the literal `wgs84`. -/
def resolveWhichconst (w : Option String) : String := w.getD "wgs84"

/-- The cached propagation record (`this.satrec`).  The working elements
written in tle.js lines 90–105 (`no`, `a`, `ndot`, …) are transcendental
functions of the chosen gravity constants and the parsed element fields;
the record therefore carries the two generators, which determine them, plus
the epoch Julian date used to form elapsed time. -/
structure SatRec where
  grav : GravConst
  elements : TLEData
  jdsatepoch : Option ℚ
  deriving DecidableEq

/-- Julian date of the element-set epoch (`this.epoch.jd(UTC)`, tle.js line
103; the `Date.jd` conversion itself lives in astroutil.js, not among the
sources — the standard Unix-millisecond to Julian-date affine map is used). -/
def epochJd (t : TLEData) : Option ℚ :=
  t.epoch_ms.map (fun m => m / 86400000 + 2440587.5)

/-- The record built on the first call, tle.js lines 84–113. -/
def mkSatRec (g : GravConst) (t : TLEData) : SatRec :=
  { grav := g, elements := t, jdsatepoch := epochJd t }

/-- Minutes since the element-set epoch, tle.js line 116 (`none` when the
epoch is an invalid date). -/
def tsinceOf (r : SatRec) (jd : ℚ) : Option ℚ :=
  r.jdsatepoch.map (fun e => (jd - e) * 1440)

/-- One call of `TLE.sgp4` (tle.js lines 75–121) as a state transition on
the cached record.  `step` stands for the low-level `sgp4(satrec, tsince)`
function of sgp4.js, which is not among the sources; per the design (§5)
the step reads the record without mutating it and is modelled as a pure
function into an arbitrary result type.  The model-name argument is read
only inside the first-call branch; `getgravconst` failing on that branch is
modelled as the signalled unknown-model error with no record created. -/
def sgp4Call {V : Type} (step : SatRec → Option ℚ → V)
    (st : Option SatRec) (t : TLEData) (jd : ℚ) (w : Option String) :
    Except String V × Option SatRec :=
  match st with
  | some r => (.ok (step r (tsinceOf r jd)), some r)
  | none =>
    match getgravconst (resolveWhichconst w) with
    | .error e => (.error e, none)
    | .ok g =>
      let r := mkSatRec g t
      (.ok (step r (tsinceOf r jd)), some r)

/-! ## The propagation step's failure reporting, modelled from the spec -/

/-- The two failure classes of the propagation step (design §7). -/
inductive PropError where
  | ConvergenceError
  | OrbitDecayedError
  deriving DecidableEq

/-- A state vector: position and velocity components (design §3). -/
structure StateVec where
  rx : ℚ
  ry : ℚ
  rz : ℚ
  vx : ℚ
  vy : ℚ
  vz : ℚ
  deriving DecidableEq

/-- Modelled from the spec (§4.4): the Kepler-equation solver of sgp4.js,
which is not among the sources — a fixed-point/Newton iteration `f` run
from the secularly updated mean anomaly with a bounded iteration count and
a convergence tolerance; exceeding the bound is non-convergence. -/
def solveKepler (f : ℚ → ℚ) (tol : ℚ) : Nat → ℚ → Option ℚ
  | 0, _ => none
  | n + 1, x =>
    let x1 := f x
    if |x1 - x| ≤ tol then some x1 else solveKepler f tol n x1

/-- The per-call numeric content of the propagation step, abstracted: the
Newton update of Kepler's equation, its starting value, the eccentricity
and radius after the periodic corrections, and the state vector produced
when every check passes.  These are transcendental functions of the record
and the elapsed time in the real step; the checks below are what the
design fixes about them. -/
structure StepNumerics where
  kepF : ℚ → ℚ
  kepStart : ℚ
  eCorr : ℚ
  radius : ℚ
  sv : StateVec

/-- Modelled from the spec (§4.4, §7): the failure discipline of the
propagation step of sgp4.js, which is not among the sources.  In order: a
Kepler solve that exceeds its iteration bound is a `ConvergenceError`; a
corrected eccentricity outside `[0,1)` is an `OrbitDecayedError`; a radius
below the gravity model's equatorial radius is an `OrbitDecayedError`;
otherwise the state vector is returned. -/
def propStep (g : GravConst) (num : StepNumerics) (maxIter : Nat) (tol : ℚ) :
    Except PropError StateVec :=
  match solveKepler num.kepF tol maxIter num.kepStart with
  | none => .error .ConvergenceError
  | some _ =>
    if num.eCorr < 0 ∨ 1 ≤ num.eCorr then .error .OrbitDecayedError
    else if num.radius < g.radiusearthkm then .error .OrbitDecayedError
    else .ok num.sv

/-! ## Claim theorems -/

/-- Element line 1 with a non-zero second-derivative field ` 12345-3`
(columns 45–52), whose element-set-convention value is `0.12345e-3`. -/
def c1Line1 : JStr :=
  "1 25544U 98067A   08264.51782528 -.00002182  12345-3 -11606-4 0  2927".data

/-- C1: the claim says both decimal-exponent fields of line 1 are
reconstructed as `(mantissa sign) × 0.<digits> × 10^(signed exponent)`.
The code does not: for the second derivative of mean motion no `0.` is
prepended (tle.js line 58), so the field ` 12345-3` is stored as
`12345e-3 = 12.345` instead of `0.12345e-3`; and for the B-star field the
mantissa sign column is never read (tle.js line 61), so `-11606-4` is
stored as `+0.11606e-4`.  This theorem evaluates the parser at those
inputs. -/
theorem C1_decimal_field_bug :
    (parseTLE [c1Line1, issLine2]).mean_motion_dot_dot = some (2469 / 200) ∧
    (2469 / 200 : ℚ) ≠ 12345 / 100000000 ∧
    substr issLine1 53 1 = ['-'] ∧
    (parseTLE [issLine1, issLine2]).bstar = some (5803 / 500000000) ∧
    (5803 / 500000000 : ℚ) ≠ -(5803 / 500000000) := by decide

/-- Element line 1 with epoch-year field `57` (columns 19–20). -/
def c2Line1 : JStr :=
  "1 25544U 98067A   57264.51782528 -.00002182  00000-0 -11606-4 0  2927".data

/-- C2 counterexample: at epoch-year field 57 the code resolves the year to
2057 (the pivot test on tle.js line 50 is `> 57`, not `≥ 57` as claimed),
so the stored epoch matches neither 1957-based value (with or without the
day-one offset); and even where the year is uncontested (the 2008 line),
the epoch is Jan 1 advanced by `day_of_year - 1` days, not by the
day-of-year field itself as the claim reads. -/
theorem C2_epoch_claim_counterexample :
    (parseTLE [c2Line1, issLine2]).epoch_ms =
      some ((utcMsJan1 2057 : ℚ) + (206654551 / 781250 - 1) * 86400 * 1000) ∧
    ((utcMsJan1 2057 : ℚ) + (206654551 / 781250 - 1) * 86400 * 1000) ≠
      (utcMsJan1 1957 : ℚ) + (206654551 / 781250) * 86400 * 1000 ∧
    ((utcMsJan1 2057 : ℚ) + (206654551 / 781250 - 1) * 86400 * 1000) ≠
      (utcMsJan1 1957 : ℚ) + (206654551 / 781250 - 1) * 86400 * 1000 ∧
    (parseTLE [issLine1, issLine2]).epoch_ms ≠
      some ((utcMsJan1 2008 : ℚ) + (206654551 / 781250) * 86400 * 1000) := by decide

/-- C2 (amended): for every parsed element set, the two-digit epoch year
field `y` resolves to `1900 + y` when `y > 57` and to `2000 + y`
otherwise, and the resolved absolute epoch equals Jan 1 00:00 UTC of that
year advanced by `(day_of_year - 1)` days. -/
theorem C2_epoch_decoding (ls : List JStr) (y d : ℚ)
    (hy : jsNumber (substr (tleLine1 ls) 18 2) = some y)
    (hd : jsNumber (substr (tleLine1 ls) 20 12) = some d) :
    (parseTLE ls).epoch_ms =
      some ((utcMsJan1 (jsTrunc (if y > 57 then 1900 + y else 2000 + y)) : ℚ)
        + (d - 1) * 86400 * 1000) := by
  show epochMsOfFields (jsNumber (substr (tleLine1 ls) 18 2))
      (jsNumber (substr (tleLine1 ls) 20 12)) = _
  rw [hy, hd]
  have hc : (if y > 57 then y + 1900 else y + 2000) =
      (if y > 57 then 1900 + y else 2000 + y) := by
    split <;> ring
  show some ((utcMsJan1 (jsTrunc (if y > 57 then y + 1900 else y + 2000)) : ℚ)
      + (d - 1) * 86400 * 1000) = _
  rw [hc]

/-- Witness for C2 at the reference line (epoch year field 8, day of year
264.51782528). -/
theorem C2_epoch_decoding_witness :
    (parseTLE [issLine1, issLine2]).epoch_ms =
      some ((utcMsJan1 (jsTrunc (if (8 : ℚ) > 57 then 1900 + 8 else 2000 + 8)) : ℚ)
        + ((206654551 / 781250 : ℚ) - 1) * 86400 * 1000) :=
  C2_epoch_decoding [issLine1, issLine2] 8 (206654551 / 781250) (by decide) (by decide)

/-- Element line 1 with malformed (non-numeric) catalog-number columns. -/
def badLine1 : JStr :=
  "1 2X5A4U 98067A   08264.51782528 -.00002182  00000-0 -11606-4 0  2927".data

/-- C3: the claim says malformed column data signals a parse failure and
the caller must not reach initialization.  The constructor has no failure
path at all: `Number` on a malformed field yields NaN (modelled `none`),
the element set is still produced, and the first propagation call on it
still creates the propagation record. -/
theorem C3_malformed_not_signalled :
    (tleFromArray [badLine1, issLine2]).satid = none ∧
    ∀ (V : Type) (step : SatRec → Option ℚ → V) (jd : ℚ),
      ((sgp4Call step none (tleFromArray [badLine1, issLine2]) jd none).2).isSome = true := by
  exact ⟨by decide, fun V step jd => rfl⟩

/-- C7: the claim says three separate string arguments parse the same as
the three-element array.  They do not: the guard on tle.js line 9 tests the
never-bound name `line3` instead of the parameter `tline3`, so the third
argument is always dropped, the name line is parsed as element line 1
(yielding NaN fields and the name `unknown`), while the array form parses
correctly. -/
theorem C7_separate_arguments_bug :
    tleFromStrings issName issLine1 issLine2 ≠
      tleFromArray [issName, issLine1, issLine2] ∧
    (tleFromStrings issName issLine1 issLine2).satid = none ∧
    (tleFromStrings issName issLine1 issLine2).name = "unknown".data ∧
    (tleFromArray [issName, issLine1, issLine2]).satid = some 25544 ∧
    (tleFromArray [issName, issLine1, issLine2]).name = "ISS (ZARYA)".data := by decide

/-- C4: each degenerate condition of the propagation step — Kepler solver
exceeding its iteration bound, corrected eccentricity outside `[0,1)`,
radius below the gravity model's equatorial radius — is reported as its
distinct typed failure (`ConvergenceError` for the first,
`OrbitDecayedError` for the other two), and under any of them no state
vector is ever returned. -/
theorem C4_degenerate_conditions_typed (g : GravConst) (num : StepNumerics)
    (maxIter : Nat) (tol : ℚ) :
    (solveKepler num.kepF tol maxIter num.kepStart = none →
      propStep g num maxIter tol = .error .ConvergenceError) ∧
    (∀ x, solveKepler num.kepF tol maxIter num.kepStart = some x →
      (num.eCorr < 0 ∨ 1 ≤ num.eCorr) →
      propStep g num maxIter tol = .error .OrbitDecayedError) ∧
    (∀ x, solveKepler num.kepF tol maxIter num.kepStart = some x →
      ¬(num.eCorr < 0 ∨ 1 ≤ num.eCorr) → num.radius < g.radiusearthkm →
      propStep g num maxIter tol = .error .OrbitDecayedError) ∧
    ((solveKepler num.kepF tol maxIter num.kepStart = none ∨
        num.eCorr < 0 ∨ 1 ≤ num.eCorr ∨ num.radius < g.radiusearthkm) →
      ∀ sv, propStep g num maxIter tol ≠ .ok sv) := by
  refine ⟨?_, ?_, ?_, ?_⟩
  · intro h
    unfold propStep
    rw [h]
  · intro x hx hbad
    unfold propStep
    rw [hx, if_pos hbad]
  · intro x hx hgood hrad
    unfold propStep
    rw [hx, if_neg hgood, if_pos hrad]
  · intro h sv
    unfold propStep
    cases hk : solveKepler num.kepF tol maxIter num.kepStart with
    | none => simp
    | some x =>
      by_cases he : num.eCorr < 0 ∨ 1 ≤ num.eCorr
      · rw [if_pos he]; simp
      · rw [if_neg he]
        by_cases hr : num.radius < g.radiusearthkm
        · rw [if_pos hr]; simp
        · rw [if_neg hr]
          rcases h with h1 | h2 | h3 | h4
          · rw [hk] at h1; exact absurd h1 (by simp)
          · exact absurd (Or.inl h2) he
          · exact absurd (Or.inr h3) he
          · exact absurd h4 hr

/-- Step numerics whose Newton map never contracts: the solver exhausts
its iteration bound. -/
def divergentNum : StepNumerics :=
  { kepF := fun x => x + 1, kepStart := 0, eCorr := 0, radius := 10000,
    sv := ⟨0, 0, 0, 0, 0, 0⟩ }

/-- Step numerics that converge at once but leave eccentricity at 2,
outside `[0,1)`. -/
def decayedNum : StepNumerics :=
  { kepF := fun x => x, kepStart := 0, eCorr := 2, radius := 10000,
    sv := ⟨0, 0, 0, 0, 0, 0⟩ }

/-- Witness for C4: a non-contracting solve yields `ConvergenceError`, and
an out-of-range corrected eccentricity yields `OrbitDecayedError`. -/
theorem C4_degenerate_conditions_typed_witness :
    propStep wgs84 divergentNum 10 0 = .error .ConvergenceError ∧
    propStep wgs84 decayedNum 10 1 = .error .OrbitDecayedError :=
  ⟨(C4_degenerate_conditions_typed wgs84 divergentNum 10 0).1 (by decide),
   (C4_degenerate_conditions_typed wgs84 decayedNum 10 1).2.1 0 (by decide) (by decide)⟩

/-- C6: exactly the two historical WGS constant-set names are recognised;
an unspecified model name defaults to `wgs84` (tle.js lines 79–80) and
resolves to the WGS-84 bundle; any other name fails with the unknown-model
error. -/
theorem C6_gravity_model_names :
    (∀ n : String, (getgravconst n).isOk = true ↔ (n = "wgs72" ∨ n = "wgs84")) ∧
    resolveWhichconst none = "wgs84" ∧
    getgravconst (resolveWhichconst none) = .ok wgs84 ∧
    ∀ n : String, n ≠ "wgs72" → n ≠ "wgs84" → getgravconst n = .error n := by
  refine ⟨?_, rfl, rfl, ?_⟩
  · intro n
    unfold getgravconst
    by_cases h1 : n = "wgs72"
    · simp [h1, Except.isOk, Except.toBool]
    · by_cases h2 : n = "wgs84" <;> simp [h1, h2, Except.isOk, Except.toBool]
  · intro n h1 h2
    unfold getgravconst
    rw [if_neg h1, if_neg h2]

/-- Witness for C6: an unrecognised name is rejected. -/
theorem C6_gravity_model_names_witness :
    getgravconst "egm96" = .error "egm96" :=
  C6_gravity_model_names.2.2.2 "egm96" (by decide) (by decide)

/-- C8: the propagation record is created lazily by the first call — the
cache moves from empty to exactly `mkSatRec g t` for the gravity bundle
`g` resolved on that call — and every later call at any time and with any
model argument leaves the very same record in place (the step function
reads it purely) and propagates with it. -/
theorem C8_record_cached_once {V : Type} (step : SatRec → Option ℚ → V)
    (t : TLEData) (jd1 : ℚ) (w1 : Option String) (g : GravConst)
    (h : getgravconst (resolveWhichconst w1) = .ok g) :
    (sgp4Call step none t jd1 w1).2 = some (mkSatRec g t) ∧
    ∀ (jd2 : ℚ) (w2 : Option String),
      (sgp4Call step (some (mkSatRec g t)) t jd2 w2).2 = some (mkSatRec g t) ∧
      (sgp4Call step (some (mkSatRec g t)) t jd2 w2).1 =
        .ok (step (mkSatRec g t) (tsinceOf (mkSatRec g t) jd2)) := by
  refine ⟨?_, fun jd2 w2 => ⟨rfl, rfl⟩⟩
  unfold sgp4Call
  rw [h]

/-- Witness for C8: a first call with `wgs72` creates the record; a second
call (defaulted model argument, different date) leaves it unchanged. -/
theorem C8_record_cached_once_witness :
    (sgp4Call (fun _ _ => (0 : ℚ)) none (parseTLE [issLine1, issLine2])
        2454730 (some "wgs72")).2 =
      some (mkSatRec wgs72 (parseTLE [issLine1, issLine2])) ∧
    (sgp4Call (fun _ _ => (0 : ℚ))
        (some (mkSatRec wgs72 (parseTLE [issLine1, issLine2])))
        (parseTLE [issLine1, issLine2]) 2454731 none).2 =
      some (mkSatRec wgs72 (parseTLE [issLine1, issLine2])) :=
  ⟨(C8_record_cached_once (fun _ _ => (0 : ℚ)) (parseTLE [issLine1, issLine2])
      2454730 (some "wgs72") wgs72 rfl).1,
   ((C8_record_cached_once (fun _ _ => (0 : ℚ)) (parseTLE [issLine1, issLine2])
      2454730 (some "wgs72") wgs72 rfl).2 2454731 none).1⟩

/-- C9: the two-digit launch-year field (line 1, tle.js lines 42–46) uses
the pivot 50, distinct from the epoch pivot: values strictly above 50 map
to the 1900s, values of 50 or below to the 2000s. -/
theorem C9_launch_year_pivot (ls : List JStr) (y : ℚ)
    (h : jsNumber (substr (tleLine1 ls) 9 2) = some y) :
    (50 < y → (parseTLE ls).launch_year = some (1900 + y)) ∧
    (y ≤ 50 → (parseTLE ls).launch_year = some (2000 + y)) := by
  constructor
  · intro hy
    show (jsNumber (substr (tleLine1 ls) 9 2)).map
      (fun y => if y > 50 then y + 1900 else y + 2000) = _
    rw [h]
    show some (if y > 50 then y + 1900 else y + 2000) = _
    rw [if_pos hy, add_comm]
  · intro hy
    show (jsNumber (substr (tleLine1 ls) 9 2)).map
      (fun y => if y > 50 then y + 1900 else y + 2000) = _
    rw [h]
    show some (if y > 50 then y + 1900 else y + 2000) = _
    rw [if_neg (not_lt.mpr hy), add_comm]

/-- Witness for C9 at the reference line: launch-year field 98 resolves to
1998. -/
theorem C9_launch_year_pivot_witness :
    (parseTLE [issLine1, issLine2]).launch_year = some (1900 + 98) :=
  (C9_launch_year_pivot [issLine1, issLine2] 98 (by decide)).1 (by decide)

/-- C10: once the record exists, the model-name argument of a call is never
read: calls at the same date with any two model arguments return identical
results, and those results are determined by the cached record — hence by
the gravity bundle resolved on the first call. -/
theorem C10_model_argument_inert {V : Type} (step : SatRec → Option ℚ → V)
    (t : TLEData) (jd1 : ℚ) (w1 : Option String) (g : GravConst)
    (h : getgravconst (resolveWhichconst w1) = .ok g) :
    (sgp4Call step none t jd1 w1).2 = some (mkSatRec g t) ∧
    ∀ (jd2 : ℚ) (w w' : Option String),
      (sgp4Call step (some (mkSatRec g t)) t jd2 w).1 =
        (sgp4Call step (some (mkSatRec g t)) t jd2 w').1 ∧
      (sgp4Call step (some (mkSatRec g t)) t jd2 w).1 =
        .ok (step (mkSatRec g t) (tsinceOf (mkSatRec g t) jd2)) := by
  refine ⟨?_, fun jd2 w w' => ⟨rfl, rfl⟩⟩
  unfold sgp4Call
  rw [h]

/-- Witness for C10: with the record created from `wgs72`, a later call
passing `wgs84` returns the same result as one passing nothing, and the
result is read off the cached record (here its gravity bundle, `wgs72`). -/
theorem C10_model_argument_inert_witness :
    (sgp4Call (fun r (_ : Option ℚ) => r.grav)
        (some (mkSatRec wgs72 (parseTLE [issLine1, issLine2])))
        (parseTLE [issLine1, issLine2]) 2454731 (some "wgs84")).1 =
      (sgp4Call (fun r (_ : Option ℚ) => r.grav)
        (some (mkSatRec wgs72 (parseTLE [issLine1, issLine2])))
        (parseTLE [issLine1, issLine2]) 2454731 none).1 ∧
    (sgp4Call (fun r (_ : Option ℚ) => r.grav)
        (some (mkSatRec wgs72 (parseTLE [issLine1, issLine2])))
        (parseTLE [issLine1, issLine2]) 2454731 (some "wgs84")).1 = .ok wgs72 :=
  ⟨((C10_model_argument_inert (fun r _ => r.grav) (parseTLE [issLine1, issLine2])
      2454731 (some "wgs72") wgs72 rfl).2 2454731 (some "wgs84") none).1,
   ((C10_model_argument_inert (fun r _ => r.grav) (parseTLE [issLine1, issLine2])
      2454731 (some "wgs72") wgs72 rfl).2 2454731 (some "wgs84") none).2⟩

end Astrokit
